import Mathlib

/-!
Shallow embedding of `src/app.py` (put-selling annualized-return screener).

The script reads a ticker and criteria from the sidebar, fetches the quote
summary (`stock.info`), resolves the current price through a Python `or`
fallback chain, fetches the expiration list and one option chain per selected
expiration, computes per-contract metrics, filters them against the user's
thresholds, concatenates all surviving rows and sorts them by
(expiration ascending, strike descending).

Floats of the source are embedded as rationals; missing upstream fields as
`Option`; the per-expiration chain fetch as `Except String` so that the
script's single top-level exception handler can be modelled faithfully.
-/

namespace PutCalc

/-- The sidebar radio button choice selecting which chain column feeds the
premium (`bid`, `lastPrice` or `ask`). -/
inductive PriceBasis
  | bid
  | last
  | ask
deriving DecidableEq, Repr

/-- The three quote-summary fields read from `stock.info` in the price
fallback chain (line 39 of `app.py`). A missing key is `none`. -/
structure Info where
  currentPrice : Option ℚ
  regularMarketPrice : Option ℚ
  previousClose : Option ℚ
deriving DecidableEq, Repr

/-- One raw put row of an option chain, with the columns the script uses.
Premium-candidate columns may be missing (`NaN` in the frame). -/
structure RawPut where
  strike : ℚ
  bid : Option ℚ
  ask : Option ℚ
  lastPrice : Option ℚ
  volume : ℤ
  openInterest : ℤ
deriving DecidableEq, Repr

/-- The upstream feed as the script sees it: the quote summary, the
expiration list (`stock.options`) and a per-expiration chain fetch
(`stock.option_chain(date).puts`) that may raise. -/
structure Feed where
  info : Info
  expirations : List String
  chain : String → Except String (List RawPut)

/-- The environment of one script execution: the feed, the day count from
now to each expiration date (`(exp_dt - datetime.now()).days`, line 92) and
the dates picked in the multiselect widget. -/
structure Env where
  feed : Feed
  rawDte : String → ℤ
  selectedDates : List String

/-- Python truthiness of an optional float: `None` and `0.0` are falsy. -/
def pyTruthy : Option ℚ → Bool
  | none => false
  | some v => decide (v ≠ 0)

/-- Python `a or b` on optional floats: `a` when truthy, otherwise `b`. -/
def pyOr (a b : Option ℚ) : Option ℚ :=
  if pyTruthy a then a else b

/-- Line 39: `info.get('currentPrice') or info.get('regularMarketPrice') or
info.get('previousClose')`. -/
def currentPriceExpr (info : Info) : Option ℚ :=
  pyOr info.currentPrice (pyOr info.regularMarketPrice info.previousClose)

/-- Lines 39-43: the resolved price after the `if not current_price` guard;
`none` exactly when the script stops on the price-unavailable path. -/
def resolvePriceGuard (info : Info) : Option ℚ :=
  if pyTruthy (currentPriceExpr info) then currentPriceExpr info else none

/-- Lines 50-58: the chain column selected by the price-basis radio label. -/
def selectPremiumField : PriceBasis → RawPut → Option ℚ
  | .bid, p => p.bid
  | .last, p => p.lastPrice
  | .ask, p => p.ask

/-- Lines 92-93: the day count with the non-positive case clamped to 1. -/
def computeDte (rawDays : ℤ) : ℤ :=
  if rawDays ≤ 0 then 1 else rawDays

/-- Lines 96-99: OTM keeps `strike < current_price`; otherwise the band
`current_price*0.7 < strike < current_price*1.1`. -/
def strikeFilter (showOtmOnly : Bool) (currentPrice : ℚ) (p : RawPut) : Bool :=
  if showOtmOnly then decide (p.strike < currentPrice)
  else decide (currentPrice * (7 / 10) < p.strike) &&
    decide (p.strike < currentPrice * (11 / 10))

/-- One output row (the display columns of lines 113-123). -/
structure Row where
  expiration : String
  dte : ℤ
  strike : ℚ
  premium : ℚ
  annualizedReturnPct : ℚ
  safetyMarginPct : ℚ
  breakEven : ℚ
  volume : ℤ
  openInterest : ℤ
deriving DecidableEq, Repr

/-- Lines 103-115: premium selection with `fillna(0)` and the three derived
metrics attached to one contract. -/
def mkRow (basis : PriceBasis) (currentPrice : ℚ) (dte : ℤ) (date : String)
    (p : RawPut) : Row :=
  let premium := (selectPremiumField basis p).getD 0
  { expiration := date
    dte := dte
    strike := p.strike
    premium := premium
    annualizedReturnPct := premium / p.strike * (365 / (dte : ℚ)) * 100
    safetyMarginPct := (currentPrice - p.strike) / currentPrice * 100
    breakEven := p.strike - premium
    volume := p.volume
    openInterest := p.openInterest }

/-- The sidebar criteria (price basis, threshold sliders, OTM checkbox). -/
structure Criteria where
  priceBasis : PriceBasis
  minAnnualizedReturn : ℚ
  minSafetyMargin : ℚ
  showOtmOnly : Bool
deriving DecidableEq, Repr

/-- Lines 96-119: the loop body for one expiration date — strike-band
filter, row construction, then the two sequential threshold filters. -/
def processDate (c : Criteria) (currentPrice : ℚ) (dte : ℤ) (date : String)
    (puts : List RawPut) : List Row :=
  let kept := puts.filter (strikeFilter c.showOtmOnly currentPrice)
  let rows := kept.map (mkRow c.priceBasis currentPrice dte date)
  let rowsA := rows.filter fun r => decide (c.minAnnualizedReturn ≤ r.annualizedReturnPct)
  rowsA.filter fun r => decide (c.minSafetyMargin ≤ r.safetyMarginPct)

/-- Lines 83-126: the per-expiration loop. A chain fetch that raises escapes
the loop (there is no handler inside it), so the whole batch fails with the
first raised message; otherwise the per-date row lists are concatenated in
fetch order. -/
def processDates (env : Env) (c : Criteria) (currentPrice : ℚ) :
    List String → Except String (List Row)
  | [] => .ok []
  | date :: rest =>
    match env.feed.chain date with
    | .error e => .error e
    | .ok puts =>
      match processDates env c currentPrice rest with
      | .error e => .error e
      | .ok restRows =>
        .ok (processDate c currentPrice (computeDte (env.rawDte date)) date puts ++ restRows)

/-- Sort key of line 133: expiration ascending, then strike descending. -/
def rowLe (a b : Row) : Prop :=
  a.expiration < b.expiration ∨ (a.expiration = b.expiration ∧ b.strike ≤ a.strike)

instance : DecidableRel rowLe := fun a b => by
  unfold rowLe; exact instDecidableOr

/-- Line 133: `sort_values(by=['Expiration', 'strike'], ascending=[True,
False])`; a multi-key pandas sort is a stable lexicographic sort. -/
def sortRows (rows : List Row) : List Row :=
  rows.insertionSort rowLe

/-- The distinct terminal outcomes of one script run other than a result
table: the three `st.error`/`st.warning` + stop paths and the single
top-level `except Exception` handler of lines 159-160. -/
inductive AppError
  | priceUnavailable
  | noExpirations
  | noDatesSelected
  | generic (msg : String)
deriving DecidableEq, Repr

/-- Lines 32-126: one run up to (but not including) the final sort — price
resolution and guard, empty-expirations stop, empty-selection stop, then the
per-expiration loop, whose escaped exception the top-level handler turns
into the generic error message. -/
def gatherRows (env : Env) (c : Criteria) : Except AppError (List Row) :=
  match resolvePriceGuard env.feed.info with
  | none => .error .priceUnavailable
  | some currentPrice =>
    if env.feed.expirations.isEmpty then .error .noExpirations
    else if env.selectedDates.isEmpty then .error .noDatesSelected
    else
      match processDates env c currentPrice env.selectedDates with
      | .error msg => .error (.generic msg)
      | .ok rows => .ok rows

/-- One full script run: gathered rows sorted as on lines 132-133. -/
def runApp (env : Env) (c : Criteria) : Except AppError (List Row) :=
  (gatherRows env c).map sortRows

/-- Number of `option_chain` calls one run performs on the given date list:
one per date up to and including the first date whose fetch raises. -/
def chainCalls (feed : Feed) : List String → ℕ
  | [] => 0
  | date :: rest =>
    match feed.chain date with
    | .ok _ => 1 + chainCalls feed rest
    | .error _ => 1

/-- Upstream requests of one script run: the unconditional `stock.info`
access (line 38), plus `stock.options` (line 63) once the price guard
passes, plus the per-expiration chain calls once both emptiness guards
pass. -/
def upstreamCalls (env : Env) : ℕ :=
  1 +
    match resolvePriceGuard env.feed.info with
    | none => 0
    | some _ =>
      1 +
        (if env.feed.expirations.isEmpty then 0
         else if env.selectedDates.isEmpty then 0
         else chainCalls env.feed env.selectedDates)

/-- What one read of the app observes: the script re-executes whole, so the
payload is freshly computed, the fetch happens at the read's own time and
the upstream requests of the run are issued again. -/
structure GetResult where
  payload : Except AppError (List Row)
  fetchedAt : ℤ
  upstreamRequests : ℕ

/-- A read at time `now`: `app.py` holds no cache, so every read runs the
fetch block of lines 32-126 anew. -/
def scriptGet (env : Env) (c : Criteria) (now : ℤ) : GetResult :=
  { payload := runApp env c
    fetchedAt := now
    upstreamRequests := upstreamCalls env }

/-- Upstream-facing operations the per-expiration loop can emit; the delay
constructor exists only to state its absence from the loop of lines
83-126. -/
inductive LoopEvent
  | fetchChain (date : String)
  | sleepDelay (ms : ℕ)
deriving DecidableEq, Repr

/-- The upstream-facing operation trace of the loop of lines 83-126: one
chain fetch per date and nothing else (the script imports no timing module
and calls no delay between requests). -/
def loopEvents (dates : List String) : List LoopEvent :=
  dates.map LoopEvent.fetchChain

/-- First message raised by the chain fetches of the given dates, if any. -/
def firstChainError (feed : Feed) : List String → Option String
  | [] => none
  | date :: rest =>
    match feed.chain date with
    | .error e => some e
    | .ok _ => firstChainError feed rest

/-- Row-key equality used to state sort stability. -/
def sameKey (e : String) (s : ℚ) (r : Row) : Bool :=
  decide (r.expiration = e) && decide (r.strike = s)

/-- Scenario contract of the spec's scenario 1: strike 140, bid 2.00. -/
def put140 : RawPut :=
  { strike := 140, bid := some 2, ask := some 3, lastPrice := some (5 / 2),
    volume := 100, openInterest := 200 }

/-- Quote summary resolving to a current price of 150.00. -/
def infoPrice150 : Info :=
  { currentPrice := some 150, regularMarketPrice := none, previousClose := none }

/-- Feed with one expiration whose chain holds the scenario contract. -/
def feedScenario : Feed :=
  { info := infoPrice150, expirations := ["2026-01-15"],
    chain := fun _ => .ok [put140] }

/-- Scenario environment: 30 days to expiration, one selected date. -/
def envScenario : Env :=
  { feed := feedScenario, rawDte := fun _ => 30, selectedDates := ["2026-01-15"] }

/-- Scenario criteria: Bid basis, zero thresholds, OTM only. -/
def critScenario : Criteria :=
  { priceBasis := .bid, minAnnualizedReturn := 0, minSafetyMargin := 0,
    showOtmOnly := true }

/-- Same criteria with the annualized-return slider raised to 30. -/
def critStrict : Criteria :=
  { priceBasis := .bid, minAnnualizedReturn := 30, minSafetyMargin := 0,
    showOtmOnly := true }

/-- The row the scenario run produces: premium 2, annualized return
(2/140)*(365/30)*100 = 365/21, safety margin 20/3, breakeven 138. -/
def rowScenario : Row :=
  { expiration := "2026-01-15", dte := 30, strike := 140, premium := 2,
    annualizedReturnPct := 365 / 21, safetyMarginPct := 20 / 3, breakEven := 138,
    volume := 100, openInterest := 200 }

/-- Scenario 2 environment: the expiration date is today, raw day count 0. -/
def envToday : Env :=
  { feed := feedScenario, rawDte := fun _ => 0, selectedDates := ["2026-01-15"] }

/-- The row of the today-expiry run: dte clamped to 1, annualized return
(2/140)*(365/1)*100 = 3650/7. -/
def rowToday : Row :=
  { expiration := "2026-01-15", dte := 1, strike := 140, premium := 2,
    annualizedReturnPct := 3650 / 7, safetyMarginPct := 20 / 3, breakEven := 138,
    volume := 100, openInterest := 200 }

/-- Tie contract: strike 100, volume 1. -/
def putV1 : RawPut :=
  { strike := 100, bid := some 1, ask := some 2, lastPrice := some 1,
    volume := 1, openInterest := 1 }

/-- Tie contract: identical key to `putV1`, volume 2. -/
def putV2 : RawPut :=
  { strike := 100, bid := some 1, ask := some 2, lastPrice := some 1,
    volume := 2, openInterest := 2 }

/-- Higher-strike contract, sorts before the strike-100 pair. -/
def putS120 : RawPut :=
  { strike := 120, bid := some 3, ask := some 4, lastPrice := some 3,
    volume := 3, openInterest := 3 }

/-- Environment for the sort scenario: one date, three contracts, two of
which share the (expiration, strike) sort key. -/
def env5 : Env :=
  { feed := { info := infoPrice150, expirations := ["2026-02-20"],
              chain := fun _ => .ok [putV1, putV2, putS120] },
    rawDte := fun _ => 30, selectedDates := ["2026-02-20"] }

/-- Row built from `putV1`. -/
def row100a : Row :=
  { expiration := "2026-02-20", dte := 30, strike := 100, premium := 1,
    annualizedReturnPct := 73 / 6, safetyMarginPct := 100 / 3, breakEven := 99,
    volume := 1, openInterest := 1 }

/-- Row built from `putV2`: same sort key as `row100a`. -/
def row100b : Row :=
  { expiration := "2026-02-20", dte := 30, strike := 100, premium := 1,
    annualizedReturnPct := 73 / 6, safetyMarginPct := 100 / 3, breakEven := 99,
    volume := 2, openInterest := 2 }

/-- Row built from `putS120`. -/
def row120 : Row :=
  { expiration := "2026-02-20", dte := 30, strike := 120, premium := 3,
    annualizedReturnPct := 365 / 12, safetyMarginPct := 20, breakEven := 117,
    volume := 3, openInterest := 3 }

/-- Partial-failure environment: three selected expirations, the second
one's chain fetch raises. -/
def env2 : Env :=
  { feed := { info := infoPrice150, expirations := ["d1", "d2", "d3"],
              chain := fun d => if d = "d2" then .error "boom" else .ok [put140] },
    rawDte := fun _ => 30, selectedDates := ["d1", "d2", "d3"] }

/-- The row the succeeding expiration d1 of `env2` yields on its own. -/
def rowD1 : Row :=
  { expiration := "d1", dte := 30, strike := 140, premium := 2,
    annualizedReturnPct := 365 / 21, safetyMarginPct := 20 / 3, breakEven := 138,
    volume := 100, openInterest := 200 }

/-- Environment whose single chain fetch raises a rate-limit message. -/
def envRateLimited : Env :=
  { feed := { info := infoPrice150, expirations := ["d1"],
              chain := fun _ => .error "Too Many Requests. Rate limited." },
    rawDte := fun _ => 30, selectedDates := ["d1"] }

/-- Quote summary whose first field is a falsy 0 and whose second resolves. -/
def infoFallback : Info :=
  { currentPrice := some 0, regularMarketPrice := some 99, previousClose := none }

/-- Environment whose price fields are all missing or zero. -/
def envNoPrice : Env :=
  { feed := { info := { currentPrice := none, regularMarketPrice := some 0,
                        previousClose := none },
              expirations := ["d1"], chain := fun _ => .ok [] },
    rawDte := fun _ => 30, selectedDates := ["d1"] }

/-- Contract whose bid column is missing. -/
def putNoBid : RawPut :=
  { strike := 140, bid := none, ask := some 3, lastPrice := some 2,
    volume := 5, openInterest := 5 }

instance : IsTotal Row rowLe where
  total a b := by
    rcases lt_trichotomy a.expiration b.expiration with h | h | h
    · exact Or.inl (Or.inl h)
    · rcases le_total b.strike a.strike with hs | hs
      · exact Or.inl (Or.inr ⟨h, hs⟩)
      · exact Or.inr (Or.inr ⟨h.symm, hs⟩)
    · exact Or.inr (Or.inl h)

instance : IsTrans Row rowLe where
  trans a b c hab hbc := by
    rcases hab with hab | ⟨hab, sab⟩
    · rcases hbc with hbc | ⟨hbc, _⟩
      · exact Or.inl (hab.trans hbc)
      · exact Or.inl (hbc ▸ hab)
    · rcases hbc with hbc | ⟨hbc, sbc⟩
      · exact Or.inl (hab ▸ hbc)
      · exact Or.inr ⟨hab.trans hbc, sbc.trans sab⟩

theorem rowLe_of_sameKey {e : String} {s : ℚ} {a b : Row}
    (hka : sameKey e s a = true) (hkb : sameKey e s b = true) : rowLe a b := by
  unfold sameKey at hka hkb
  simp only [Bool.and_eq_true, decide_eq_true_eq] at hka hkb
  exact Or.inr ⟨hka.1.trans hkb.1.symm, by rw [hka.2, hkb.2]⟩

theorem filter_orderedInsert (p : Row → Bool) (a : Row)
    (ha : p a = true → ∀ b, p b = true → rowLe a b) (l : List Row) :
    (l.orderedInsert rowLe a).filter p = (if p a then [a] else []) ++ l.filter p := by
  induction l with
  | nil => cases hpa : p a <;> simp [List.orderedInsert, hpa]
  | cons b t ih =>
    rw [List.orderedInsert]
    by_cases hab : rowLe a b
    · rw [if_pos hab]
      cases hpa : p a <;> simp [List.filter_cons, hpa]
    · rw [if_neg hab, List.filter_cons, List.filter_cons]
      cases hpb : p b with
      | false => simpa using ih
      | true =>
        cases hpa : p a with
        | false => simp only [ih, hpa]; simp
        | true => exact absurd (ha hpa b hpb) hab

theorem filter_sortRows (p : Row → Bool)
    (hp : ∀ a b, p a = true → p b = true → rowLe a b) (l : List Row) :
    (sortRows l).filter p = l.filter p := by
  induction l with
  | nil => rfl
  | cons a t ih =>
    unfold sortRows at ih ⊢
    rw [List.insertionSort,
      filter_orderedInsert p a (fun hpa b hpb => hp a b hpa hpb), ih,
      List.filter_cons]
    cases hpa : p a <;> simp [hpa]

theorem sorted_sortRows (l : List Row) : (sortRows l).Sorted rowLe :=
  List.sorted_insertionSort rowLe l

theorem mem_sortRows {l : List Row} {r : Row} : r ∈ sortRows l ↔ r ∈ l :=
  List.mem_insertionSort rowLe

theorem length_sortRows (l : List Row) : (sortRows l).length = l.length :=
  List.length_insertionSort rowLe l

theorem runApp_ok {env : Env} {c : Criteria} {rows : List Row}
    (h : runApp env c = .ok rows) :
    ∃ pre, gatherRows env c = .ok pre ∧ rows = sortRows pre := by
  unfold runApp at h
  cases hg : gatherRows env c with
  | error e => rw [hg] at h; simp [Except.map] at h
  | ok pre =>
    rw [hg] at h
    simp only [Except.map] at h
    injection h with h
    exact ⟨pre, rfl, h.symm⟩

theorem gatherRows_eq_none {env : Env} {c : Criteria}
    (hp : resolvePriceGuard env.feed.info = none) :
    gatherRows env c = .error AppError.priceUnavailable := by
  unfold gatherRows
  rw [hp]

theorem gatherRows_eq_some {env : Env} {c : Criteria} {price : ℚ}
    (hp : resolvePriceGuard env.feed.info = some price) :
    gatherRows env c =
      if env.feed.expirations.isEmpty then .error AppError.noExpirations
      else if env.selectedDates.isEmpty then .error AppError.noDatesSelected
      else
        match processDates env c price env.selectedDates with
        | .error msg => .error (AppError.generic msg)
        | .ok rows => .ok rows := by
  unfold gatherRows
  rw [hp]

theorem gatherRows_ok {env : Env} {c : Criteria} {pre : List Row}
    (h : gatherRows env c = .ok pre) :
    ∃ price, resolvePriceGuard env.feed.info = some price ∧
      processDates env c price env.selectedDates = .ok pre := by
  cases hp : resolvePriceGuard env.feed.info with
  | none => rw [gatherRows_eq_none hp] at h; exact Except.noConfusion h
  | some price =>
    rw [gatherRows_eq_some hp] at h
    refine ⟨price, rfl, ?_⟩
    split_ifs at h with h1 h2
    all_goals first
    | exact Except.noConfusion h
    | cases hpd : processDates env c price env.selectedDates with
      | error msg => rw [hpd] at h; exact Except.noConfusion h
      | ok rows2 => rw [hpd] at h; injection h with h; rw [h]

theorem mem_processDate_exists {c : Criteria} {price : ℚ} {dte : ℤ}
    {date : String} {puts : List RawPut} {r : Row}
    (h : r ∈ processDate c price dte date puts) :
    ∃ p ∈ puts, strikeFilter c.showOtmOnly price p = true ∧
      r = mkRow c.priceBasis price dte date p ∧
      c.minAnnualizedReturn ≤ r.annualizedReturnPct ∧
      c.minSafetyMargin ≤ r.safetyMarginPct := by
  unfold processDate at h
  rw [List.mem_filter] at h
  obtain ⟨h1, hs⟩ := h
  rw [List.mem_filter] at h1
  obtain ⟨h2, ha⟩ := h1
  rw [List.mem_map] at h2
  obtain ⟨p, hp, rfl⟩ := h2
  rw [List.mem_filter] at hp
  exact ⟨p, hp.1, hp.2, rfl, of_decide_eq_true ha, of_decide_eq_true hs⟩

theorem mem_processDates {env : Env} {c : Criteria} {price : ℚ} :
    ∀ {dates : List String} {rows : List Row},
      processDates env c price dates = .ok rows → ∀ r ∈ rows,
        ∃ date ∈ dates, ∃ puts, env.feed.chain date = .ok puts ∧
          r ∈ processDate c price (computeDte (env.rawDte date)) date puts := by
  intro dates
  induction dates with
  | nil =>
    intro rows h r hr
    unfold processDates at h
    injection h with h
    subst h
    exact absurd hr (List.not_mem_nil r)
  | cons date rest ih =>
    intro rows h r hr
    unfold processDates at h
    cases hc : env.feed.chain date with
    | error e => rw [hc] at h; simp at h
    | ok puts =>
      rw [hc] at h
      cases hrest : processDates env c price rest with
      | error e => rw [hrest] at h; simp at h
      | ok restRows =>
        rw [hrest] at h
        injection h with h
        subst h
        rcases List.mem_append.mp hr with hl | hr2
        · exact ⟨date, List.mem_cons_self date rest, puts, hc, hl⟩
        · obtain ⟨d, hd, puts2, hc2, hm⟩ := ih hrest r hr2
          exact ⟨d, List.mem_cons_of_mem date hd, puts2, hc2, hm⟩

theorem processDates_error {env : Env} {c : Criteria} {price : ℚ} :
    ∀ {dates : List String} {e : String},
      firstChainError env.feed dates = some e →
      processDates env c price dates = .error e := by
  intro dates
  induction dates with
  | nil => intro e h; simp [firstChainError] at h
  | cons date rest ih =>
    intro e h
    unfold firstChainError at h
    unfold processDates
    cases hc : env.feed.chain date with
    | error e0 =>
      rw [hc] at h
      injection h with h
      rw [h]
    | ok puts =>
      rw [hc] at h
      rw [ih h]

theorem runApp_error_of_firstChainError {env : Env} {c : Criteria} {price : ℚ}
    {e : String}
    (hp : resolvePriceGuard env.feed.info = some price)
    (he : env.feed.expirations ≠ [])
    (hs : env.selectedDates ≠ [])
    (hf : firstChainError env.feed env.selectedDates = some e) :
    runApp env c = .error (AppError.generic e) := by
  have hpd := @processDates_error env c price _ _ hf
  unfold runApp
  rw [gatherRows_eq_some hp,
    if_neg (by simpa using he), if_neg (by simpa using hs), hpd]
  rfl

theorem processDate_sublist {c c2 : Criteria}
    (hb : c2.priceBasis = c.priceBasis) (ho : c2.showOtmOnly = c.showOtmOnly)
    (ha : c.minAnnualizedReturn ≤ c2.minAnnualizedReturn)
    (hs : c.minSafetyMargin ≤ c2.minSafetyMargin)
    (price : ℚ) (dte : ℤ) (date : String) (puts : List RawPut) :
    List.Sublist (processDate c2 price dte date puts) (processDate c price dte date puts) := by
  unfold processDate
  rw [hb, ho]
  refine List.Sublist.trans
    (List.monotone_filter_right _ ?_)
    (List.Sublist.filter _ (List.monotone_filter_right _ ?_))
  · intro r hr
    exact decide_eq_true (le_trans hs (of_decide_eq_true hr))
  · intro r hr
    exact decide_eq_true (le_trans ha (of_decide_eq_true hr))

theorem processDates_sublist {env : Env} {c c2 : Criteria} {price : ℚ}
    (hb : c2.priceBasis = c.priceBasis) (ho : c2.showOtmOnly = c.showOtmOnly)
    (ha : c.minAnnualizedReturn ≤ c2.minAnnualizedReturn)
    (hs : c.minSafetyMargin ≤ c2.minSafetyMargin) :
    ∀ {dates : List String} {rows rows2 : List Row},
      processDates env c price dates = .ok rows →
      processDates env c2 price dates = .ok rows2 → List.Sublist rows2 rows := by
  intro dates
  induction dates with
  | nil =>
    intro rows rows2 h h2
    unfold processDates at h h2
    injection h with h
    injection h2 with h2
    subst h; subst h2
    exact List.Sublist.refl []
  | cons date rest ih =>
    intro rows rows2 h h2
    unfold processDates at h h2
    cases hc : env.feed.chain date with
    | error e => rw [hc] at h; simp at h
    | ok puts =>
      rw [hc] at h h2
      cases hrest : processDates env c price rest with
      | error e => rw [hrest] at h; simp at h
      | ok restRows =>
        rw [hrest] at h
        cases hrest2 : processDates env c2 price rest with
        | error e => rw [hrest2] at h2; simp at h2
        | ok restRows2 =>
          rw [hrest2] at h2
          injection h with h
          injection h2 with h2
          subst h; subst h2
          exact List.Sublist.append
            (processDate_sublist hb ho ha hs price (computeDte (env.rawDte date)) date puts)
            (ih hrest hrest2)

theorem pyTruthy_some {p : ℚ} (h : p ≠ 0) : pyTruthy (some p) = true := by
  simp [pyTruthy, h]

theorem pyOr_pos {a b : Option ℚ} (h : pyTruthy a = true) : pyOr a b = a := by
  unfold pyOr
  rw [if_pos h]

theorem pyOr_neg {a b : Option ℚ} (h : pyTruthy a = false) : pyOr a b = b := by
  unfold pyOr
  rw [h]
  simp

theorem resolvePriceGuard_eq {info : Info}
    (h : pyTruthy (currentPriceExpr info) = true) :
    resolvePriceGuard info = currentPriceExpr info := by
  unfold resolvePriceGuard
  rw [if_pos h]

theorem resolvePriceGuard_none {info : Info}
    (h : pyTruthy (currentPriceExpr info) = false) :
    resolvePriceGuard info = none := by
  unfold resolvePriceGuard
  rw [h]
  simp

theorem one_le_computeDte (raw : ℤ) : 1 ≤ computeDte raw := by
  unfold computeDte
  split_ifs with h
  · exact le_refl 1
  · omega

theorem computeDte_of_nonpos {raw : ℤ} (h : raw ≤ 0) : computeDte raw = 1 := by
  unfold computeDte
  rw [if_pos h]

theorem mem_runApp_struct {env : Env} {c : Criteria} {rows : List Row}
    (hok : runApp env c = .ok rows) :
    ∀ r ∈ rows, ∃ price date p,
      resolvePriceGuard env.feed.info = some price ∧ date ∈ env.selectedDates ∧
      r = mkRow c.priceBasis price (computeDte (env.rawDte date)) date p := by
  intro r hr
  obtain ⟨pre, hg, hre⟩ := runApp_ok hok
  subst hre
  obtain ⟨price, hp, hpd⟩ := gatherRows_ok hg
  rw [mem_sortRows] at hr
  obtain ⟨date, hdm, puts, hchain, hm⟩ := mem_processDates hpd r hr
  obtain ⟨p, hpmem, hsf, heq, hA, hS⟩ := mem_processDate_exists hm
  exact ⟨price, date, p, hp, hdm, heq⟩

/-- C3: every row of a successful run carries exactly the source formulas:
annualizedReturnPct = premium/strike * 365/dte * 100, safetyMarginPct =
(currentPrice - strike)/currentPrice * 100 and breakEven = strike - premium,
where currentPrice is the resolved price of the run. -/
theorem c3_metric_formulas (env : Env) (c : Criteria) (rows : List Row)
    (price : ℚ) (hok : runApp env c = .ok rows)
    (hp : resolvePriceGuard env.feed.info = some price) :
    ∀ r ∈ rows,
      r.annualizedReturnPct = r.premium / r.strike * (365 / (r.dte : ℚ)) * 100 ∧
      r.safetyMarginPct = (price - r.strike) / price * 100 ∧
      r.breakEven = r.strike - r.premium := by
  intro r hr
  obtain ⟨price2, date, p, hp2, hdm, hre⟩ := mem_runApp_struct hok r hr
  rw [hp] at hp2
  injection hp2 with hp2
  subst hp2
  subst hre
  exact ⟨rfl, rfl, rfl⟩

/-- C3 witness: the spec's scenario 1 — currentPrice 150.00, strike 140,
bid 2.00, dte 30, basis Bid — yields exactly annualizedReturnPct =
(2/140)*(365/30)*100, safetyMarginPct = (10/150)*100 and breakEven 138. -/
theorem c3_witness :
    runApp envScenario critScenario = .ok [rowScenario] ∧
    rowScenario.annualizedReturnPct = 2 / 140 * (365 / 30) * 100 ∧
    rowScenario.safetyMarginPct = (150 - 140) / 150 * 100 ∧
    rowScenario.breakEven = 138 ∧
    (rowScenario.annualizedReturnPct =
        rowScenario.premium / rowScenario.strike * (365 / (rowScenario.dte : ℚ)) * 100 ∧
      rowScenario.safetyMarginPct = (150 - rowScenario.strike) / 150 * 100 ∧
      rowScenario.breakEven = rowScenario.strike - rowScenario.premium) := by
  have hok : runApp envScenario critScenario = .ok [rowScenario] := by
    simp [runApp, gatherRows, resolvePriceGuard, currentPriceExpr, pyOr, pyTruthy,
      processDates, processDate, strikeFilter, mkRow, selectPremiumField, computeDte,
      sortRows, List.insertionSort, List.orderedInsert, envScenario, feedScenario,
      infoPrice150, critScenario, put140, rowScenario, Except.map]
    all_goals norm_num [List.filter_cons, List.filter_nil, List.map_cons, List.map_nil,
      strikeFilter, mkRow, selectPremiumField]
  have hp : resolvePriceGuard envScenario.feed.info = some 150 := by
    norm_num [resolvePriceGuard, currentPriceExpr, pyOr, pyTruthy, envScenario,
      feedScenario, infoPrice150]
  refine ⟨hok, by norm_num [rowScenario], by norm_num [rowScenario],
    by norm_num [rowScenario], ?_⟩
  exact c3_metric_formulas envScenario critScenario [rowScenario] 150 hok hp
    rowScenario (by simp)

/-- C4: in every successful run, each row's dte is the clamped day count:
it equals computeDte of the raw day count for the row's expiration, is at
least 1, equals exactly 1 whenever the raw count is nonpositive, and is the
value fed to the annualized-return formula. -/
theorem c4_dte_clamped (env : Env) (c : Criteria) (rows : List Row)
    (hok : runApp env c = .ok rows) :
    ∀ r ∈ rows,
      r.dte = computeDte (env.rawDte r.expiration) ∧
      1 ≤ r.dte ∧
      (env.rawDte r.expiration ≤ 0 → r.dte = 1) ∧
      r.annualizedReturnPct = r.premium / r.strike * (365 / (r.dte : ℚ)) * 100 := by
  intro r hr
  obtain ⟨price, date, p, hp, hdm, hre⟩ := mem_runApp_struct hok r hr
  subst hre
  refine ⟨by simp [mkRow], ?_, ?_, rfl⟩
  · simpa [mkRow] using one_le_computeDte (env.rawDte date)
  · intro h
    simp only [mkRow] at h ⊢
    exact computeDte_of_nonpos h

/-- C4 witness: the spec's scenario 2 — the same contract with expiration
today (raw dte 0) — is clamped to dte 1 and produces the inflated
annualizedReturnPct (2/140)*(365/1)*100 instead of raising. -/
theorem c4_witness :
    runApp envToday critScenario = .ok [rowToday] ∧
    envToday.rawDte "2026-01-15" = 0 ∧
    rowToday.dte = 1 ∧
    rowToday.annualizedReturnPct = 2 / 140 * (365 / 1) * 100 ∧
    (rowToday.dte = computeDte (envToday.rawDte rowToday.expiration) ∧
      1 ≤ rowToday.dte ∧
      (envToday.rawDte rowToday.expiration ≤ 0 → rowToday.dte = 1) ∧
      rowToday.annualizedReturnPct =
        rowToday.premium / rowToday.strike * (365 / (rowToday.dte : ℚ)) * 100) := by
  have hok : runApp envToday critScenario = .ok [rowToday] := by
    simp [runApp, gatherRows, resolvePriceGuard, currentPriceExpr, pyOr, pyTruthy,
      processDates, processDate, strikeFilter, mkRow, selectPremiumField, computeDte,
      sortRows, List.insertionSort, List.orderedInsert, envToday, feedScenario,
      infoPrice150, critScenario, put140, rowToday, Except.map]
    all_goals norm_num [List.filter_cons, List.filter_nil, List.map_cons, List.map_nil,
      strikeFilter, mkRow, selectPremiumField]
  refine ⟨hok, rfl, rfl, by norm_num [rowToday], ?_⟩
  exact c4_dte_clamped envToday critScenario [rowToday] hok rowToday (by simp)

/-- C5: a successful run's output is the stable sort of the gathered rows
by (expiration ascending, strike descending): it is sorted under rowLe, and
for every sort key the rows carrying that key appear in their original
fetch order (filtering by the key commutes with the sort). -/
theorem c5_sort_stable (env : Env) (c : Criteria) (pre : List Row)
    (h : gatherRows env c = .ok pre) :
    runApp env c = .ok (sortRows pre) ∧
    (sortRows pre).Sorted rowLe ∧
    ∀ e s, (sortRows pre).filter (sameKey e s) = pre.filter (sameKey e s) := by
  refine ⟨?_, sorted_sortRows pre, ?_⟩
  · unfold runApp
    rw [h]
    rfl
  · intro e s
    exact filter_sortRows (sameKey e s) (fun a b hka hkb => rowLe_of_sameKey hka hkb) pre

/-- C5 witness: three fetched rows, two sharing the sort key
("2026-02-20", 100): the sorted output puts strike 120 first and keeps the
tied pair in fetch order, and filtering by the tied key commutes with the
sort. -/
theorem c5_witness :
    gatherRows env5 critScenario = .ok [row100a, row100b, row120] ∧
    runApp env5 critScenario = .ok (sortRows [row100a, row100b, row120]) ∧
    sortRows [row100a, row100b, row120] = [row120, row100a, row100b] ∧
    (sortRows [row100a, row100b, row120]).filter (sameKey "2026-02-20" 100) =
      [row100a, row100b, row120].filter (sameKey "2026-02-20" 100) := by
  have hg : gatherRows env5 critScenario = .ok [row100a, row100b, row120] := by
    simp [gatherRows, resolvePriceGuard, currentPriceExpr, pyOr, pyTruthy,
      processDates, processDate, strikeFilter, mkRow, selectPremiumField, computeDte,
      env5, infoPrice150, critScenario, putV1, putV2, putS120, row100a, row100b, row120]
    all_goals norm_num [List.filter_cons, List.filter_nil, List.map_cons, List.map_nil,
      strikeFilter, mkRow, selectPremiumField]
  have happ := c5_sort_stable env5 critScenario [row100a, row100b, row120] hg
  refine ⟨hg, happ.1, ?_, happ.2.2 "2026-02-20" 100⟩
  norm_num [sortRows, List.insertionSort, List.orderedInsert, rowLe,
    row100a, row100b, row120]

/-- C6: with the same environment, basis and OTM choice, raising either
threshold yields a result set that is a subset of the original (every
surviving row already survived before) and never larger. -/
theorem c6_threshold_monotone (env : Env) (c c2 : Criteria)
    (hb : c2.priceBasis = c.priceBasis) (ho : c2.showOtmOnly = c.showOtmOnly)
    (ha : c.minAnnualizedReturn ≤ c2.minAnnualizedReturn)
    (hs : c.minSafetyMargin ≤ c2.minSafetyMargin)
    (rows rows2 : List Row)
    (h : runApp env c = .ok rows) (h2 : runApp env c2 = .ok rows2) :
    (∀ r ∈ rows2, r ∈ rows) ∧ rows2.length ≤ rows.length := by
  obtain ⟨pre, hg, hre⟩ := runApp_ok h
  obtain ⟨pre2, hg2, hre2⟩ := runApp_ok h2
  subst hre
  subst hre2
  obtain ⟨price, hp, hpd⟩ := gatherRows_ok hg
  obtain ⟨price2, hp2, hpd2⟩ := gatherRows_ok hg2
  rw [hp] at hp2
  injection hp2 with hp2
  subst hp2
  have hsub := processDates_sublist hb ho ha hs hpd hpd2
  constructor
  · intro r hr
    rw [mem_sortRows] at hr ⊢
    exact hsub.subset hr
  · rw [length_sortRows, length_sortRows]
    exact hsub.length_le

/-- C6 witness: raising minAnnualizedReturnPct from 0 to 30 on the scenario
chain shrinks the result set from one row (annualized 365/21 < 30) to
none. -/
theorem c6_witness :
    runApp envScenario critScenario = .ok [rowScenario] ∧
    runApp envScenario critStrict = .ok [] ∧
    ([] : List Row).length ≤ [rowScenario].length := by
  have hok : runApp envScenario critScenario = .ok [rowScenario] := by
    simp [runApp, gatherRows, resolvePriceGuard, currentPriceExpr, pyOr, pyTruthy,
      processDates, processDate, strikeFilter, mkRow, selectPremiumField, computeDte,
      sortRows, List.insertionSort, List.orderedInsert, envScenario, feedScenario,
      infoPrice150, critScenario, put140, rowScenario, Except.map]
    all_goals norm_num [List.filter_cons, List.filter_nil, List.map_cons, List.map_nil,
      strikeFilter, mkRow, selectPremiumField]
  have hok2 : runApp envScenario critStrict = .ok [] := by
    simp [runApp, gatherRows, resolvePriceGuard, currentPriceExpr, pyOr, pyTruthy,
      processDates, processDate, strikeFilter, mkRow, selectPremiumField, computeDte,
      sortRows, List.insertionSort, List.orderedInsert, envScenario, feedScenario,
      infoPrice150, critStrict, put140, Except.map]
    all_goals norm_num [List.filter_cons, List.filter_nil, List.map_cons, List.map_nil,
      strikeFilter, mkRow, selectPremiumField]
  exact ⟨hok, hok2,
    (c6_threshold_monotone envScenario critScenario critStrict rfl rfl
      (by norm_num [critScenario, critStrict]) (by norm_num [critScenario, critStrict])
      [rowScenario] [] hok hok2).2⟩

/-- C1 (amended): the script holds no cache at all: every read re-executes
the fetch block of lines 32-126, so its payload is a freshly computed run,
its fetchedAt is the read's own time (never a prior fetch's), and at least
one upstream request (the unconditional stock.info access) is issued on
every read, inside or outside any TTL window. -/
theorem c1_amended (env : Env) (c : Criteria) (now : ℤ) :
    (scriptGet env c now).fetchedAt = now ∧
    1 ≤ (scriptGet env c now).upstreamRequests ∧
    (scriptGet env c now).payload = runApp env c := by
  refine ⟨rfl, ?_, rfl⟩
  show 1 ≤ upstreamCalls env
  unfold upstreamCalls
  exact Nat.le_add_right 1 _

/-- C1 counterexample: a read 7 time units after a prior fetch — inside any
TTL window of 300 — still issues 3 upstream requests and returns its own
time as fetchedAt, not the prior fetch's, falsifying the claimed no-refetch
behavior inside the TTL window. -/
theorem c1_counterexample :
    (scriptGet envScenario critScenario 0).fetchedAt = 0 ∧
    (scriptGet envScenario critScenario 7).fetchedAt = 7 ∧
    (7 : ℤ) - 0 < 300 ∧
    (scriptGet envScenario critScenario 7).upstreamRequests = 3 ∧
    (scriptGet envScenario critScenario 7).fetchedAt ≠
      (scriptGet envScenario critScenario 0).fetchedAt := by
  refine ⟨rfl, rfl, by norm_num, ?_, by norm_num [scriptGet]⟩
  show upstreamCalls envScenario = 3
  norm_num [upstreamCalls, chainCalls, resolvePriceGuard, currentPriceExpr, pyOr,
    pyTruthy, envScenario, feedScenario, infoPrice150]

/-- C2 (amended): the per-expiration loop has no local recovery: when any
selected expiration's chain fetch raises, the exception escapes to the
single top-level handler and the whole run returns the generic error with
the first raised message — no rows are returned even when other
expirations succeed, and no NoOptionData zero-success distinction exists. -/
theorem c2_amended (env : Env) (c : Criteria) (price : ℚ) (e : String)
    (hp : resolvePriceGuard env.feed.info = some price)
    (he : env.feed.expirations ≠ []) (hsel : env.selectedDates ≠ [])
    (hf : firstChainError env.feed env.selectedDates = some e) :
    runApp env c = .error (AppError.generic e) ∧
    ∀ rows : List Row, runApp env c ≠ .ok rows := by
  have herr := runApp_error_of_firstChainError (c := c) hp he hsel hf
  refine ⟨herr, fun rows hok => ?_⟩
  rw [herr] at hok
  exact Except.noConfusion hok

/-- C2 witness: in env2 the second of three selected expirations fails, and
the run surfaces the generic error and returns no rows. -/
theorem c2_witness :
    runApp env2 critScenario = .error (AppError.generic "boom") ∧
    runApp env2 critScenario ≠ .ok [rowD1] := by
  have h := c2_amended env2 critScenario 150 "boom"
    (by norm_num [resolvePriceGuard, currentPriceExpr, pyOr, pyTruthy, env2,
      infoPrice150])
    (by simp [env2]) (by simp [env2])
    (by simp [firstChainError, env2])
  exact ⟨h.1, h.2 [rowD1]⟩

/-- C2 counterexample: the first of env2's three selected expirations
succeeds and on its own yields a row, yet because the second one's fetch
raises, the run returns the generic error and no rows at all — not the
partial result built from the succeeding expirations that the claim
requires. -/
theorem c2_counterexample :
    env2.feed.chain "d1" = .ok [put140] ∧
    processDate critScenario 150 30 "d1" [put140] = [rowD1] ∧
    runApp env2 critScenario = .error (AppError.generic "boom") := by
  refine ⟨by simp [env2], ?_, ?_⟩
  · simp [processDate, strikeFilter, mkRow, selectPremiumField, critScenario,
      put140, rowD1]
    all_goals norm_num [List.filter_cons, List.filter_nil, List.map_cons,
      List.map_nil, strikeFilter, mkRow, selectPremiumField]
  · simp [runApp, gatherRows, resolvePriceGuard, currentPriceExpr, pyOr, pyTruthy,
      processDates, processDate, strikeFilter, mkRow, selectPremiumField, computeDte,
      env2, infoPrice150, critScenario, put140, Except.map]

/-- C7 (amended): the script classifies no errors and enforces no spacing:
every upstream chain failure, a rate-limit response included, surfaces
through the single top-level handler as the generic error carrying the raw
message, and the per-expiration loop emits only chain fetches — never a
delay operation between successive requests. -/
theorem c7_amended (env : Env) (c : Criteria) (price : ℚ) (e : String)
    (hp : resolvePriceGuard env.feed.info = some price)
    (he : env.feed.expirations ≠ []) (hsel : env.selectedDates ≠ [])
    (hf : firstChainError env.feed env.selectedDates = some e)
    (dates : List String) (ms : ℕ) :
    runApp env c = .error (AppError.generic e) ∧
    LoopEvent.sleepDelay ms ∉ loopEvents dates := by
  refine ⟨runApp_error_of_firstChainError (c := c) hp he hsel hf, ?_⟩
  intro hmem
  unfold loopEvents at hmem
  rw [List.mem_map] at hmem
  obtain ⟨d, hd, hdeq⟩ := hmem
  exact LoopEvent.noConfusion hdeq

/-- C7 witness: a rate-limited chain fetch surfaces as the generic error
with the raw message, and the loop trace over three dates contains no
delay operation. -/
theorem c7_witness :
    runApp envRateLimited critScenario =
      .error (AppError.generic "Too Many Requests. Rate limited.") ∧
    LoopEvent.sleepDelay 100 ∉ loopEvents ["d1", "d2", "d3"] :=
  c7_amended envRateLimited critScenario 150 "Too Many Requests. Rate limited."
    (by norm_num [resolvePriceGuard, currentPriceExpr, pyOr, pyTruthy,
      envRateLimited, infoPrice150])
    (by simp [envRateLimited]) (by simp [envRateLimited])
    (by simp [firstChainError, envRateLimited]) ["d1", "d2", "d3"] 100

/-- C7 counterexample: when the upstream feed signals rate limiting, the
surfaced error is the generic catch-all message of lines 159-160, not a
distinguished RateLimited variant — the code's error surface has none. -/
theorem c7_counterexample :
    runApp envRateLimited critScenario =
      .error (AppError.generic "Too Many Requests. Rate limited.") := by
  simp [runApp, gatherRows, resolvePriceGuard, currentPriceExpr, pyOr, pyTruthy,
    processDates, envRateLimited, infoPrice150, Except.map]

/-- C8: price resolution follows the ordered fallback chain currentPrice,
regularMarketPrice, previousClose, returning the first truthy (present and
nonzero) field; when none resolves the guard yields none and the run stops
with the price-unavailable error, producing no rows. -/
theorem c8_price_fallback :
    (∀ info p, info.currentPrice = some p → p ≠ 0 →
      resolvePriceGuard info = some p) ∧
    (∀ info p, pyTruthy info.currentPrice = false → info.regularMarketPrice = some p →
      p ≠ 0 → resolvePriceGuard info = some p) ∧
    (∀ info p, pyTruthy info.currentPrice = false →
      pyTruthy info.regularMarketPrice = false → info.previousClose = some p →
      p ≠ 0 → resolvePriceGuard info = some p) ∧
    (∀ info, pyTruthy info.currentPrice = false →
      pyTruthy info.regularMarketPrice = false → pyTruthy info.previousClose = false →
      resolvePriceGuard info = none) ∧
    (∀ env c, resolvePriceGuard env.feed.info = none →
      runApp env c = .error AppError.priceUnavailable ∧
        ∀ rows : List Row, runApp env c ≠ .ok rows) := by
  refine ⟨?_, ?_, ?_, ?_, ?_⟩
  · intro info p hc hp0
    have hcp : currentPriceExpr info = some p := by
      unfold currentPriceExpr
      rw [hc, pyOr_pos (pyTruthy_some hp0)]
    rw [resolvePriceGuard_eq (by rw [hcp]; exact pyTruthy_some hp0), hcp]
  · intro info p hc hr hp0
    have hcp : currentPriceExpr info = some p := by
      unfold currentPriceExpr
      rw [pyOr_neg hc, hr, pyOr_pos (pyTruthy_some hp0)]
    rw [resolvePriceGuard_eq (by rw [hcp]; exact pyTruthy_some hp0), hcp]
  · intro info p hc hr hpc hp0
    have hcp : currentPriceExpr info = some p := by
      unfold currentPriceExpr
      rw [pyOr_neg hc, pyOr_neg hr, hpc]
    rw [resolvePriceGuard_eq (by rw [hcp]; exact pyTruthy_some hp0), hcp]
  · intro info hc hr hpc
    have hcp : currentPriceExpr info = info.previousClose := by
      unfold currentPriceExpr
      rw [pyOr_neg hc, pyOr_neg hr]
    exact resolvePriceGuard_none (by rw [hcp]; exact hpc)
  · intro env c hp
    have herr : runApp env c = .error AppError.priceUnavailable := by
      unfold runApp
      rw [gatherRows_eq_none hp]
      rfl
    refine ⟨herr, fun rows hok => ?_⟩
    rw [herr] at hok
    exact Except.noConfusion hok

/-- C8 witness: a falsy currentPrice of 0 falls through to a
regularMarketPrice of 99, and an environment with no truthy price field
stops with the price-unavailable error. -/
theorem c8_witness :
    pyTruthy infoFallback.currentPrice = false ∧
    resolvePriceGuard infoFallback = some 99 ∧
    runApp envNoPrice critScenario = .error AppError.priceUnavailable := by
  refine ⟨by norm_num [infoFallback, pyTruthy], ?_, ?_⟩
  · exact c8_price_fallback.2.1 infoFallback 99
      (by norm_num [infoFallback, pyTruthy]) rfl (by norm_num)
  · exact (c8_price_fallback.2.2.2.2 envNoPrice critScenario
      (by norm_num [resolvePriceGuard, currentPriceExpr, pyOr, pyTruthy,
        envNoPrice])).1

/-- C9: a contract whose premium field under the selected basis is missing
gets premium exactly 0 and annualizedReturnPct exactly 0, and its row stays
subject to the normal threshold filtering of the loop — membership in the
output of processDate is decided by the same threshold predicate, with no
error path. -/
theorem c9_missing_premium (c : Criteria) (price : ℚ) (dte : ℤ) (date : String)
    (p : RawPut) (puts : List RawPut)
    (hmiss : selectPremiumField c.priceBasis p = none) :
    (mkRow c.priceBasis price dte date p).premium = 0 ∧
    (mkRow c.priceBasis price dte date p).annualizedReturnPct = 0 ∧
    (p ∈ puts → strikeFilter c.showOtmOnly price p = true →
      (mkRow c.priceBasis price dte date p ∈ processDate c price dte date puts ↔
        (c.minAnnualizedReturn ≤ 0 ∧
          c.minSafetyMargin ≤ (price - p.strike) / price * 100))) := by
  have hprem : (mkRow c.priceBasis price dte date p).premium = 0 := by
    simp [mkRow, hmiss]
  have hann : (mkRow c.priceBasis price dte date p).annualizedReturnPct = 0 := by
    simp [mkRow, hmiss]
  have hsafe : (mkRow c.priceBasis price dte date p).safetyMarginPct =
      (price - p.strike) / price * 100 := rfl
  refine ⟨hprem, hann, fun hmem hkeep => ?_⟩
  constructor
  · intro hin
    obtain ⟨q, hq, hqs, heq, hA, hS⟩ := mem_processDate_exists hin
    constructor
    · rw [hann] at hA
      exact hA
    · rw [hsafe] at hS
      exact hS
  · rintro ⟨hA, hS⟩
    unfold processDate
    simp only [List.mem_filter, List.mem_map]
    refine ⟨⟨⟨p, ?_, rfl⟩, ?_⟩, ?_⟩
    · exact ⟨hmem, hkeep⟩
    · rw [hann]
      exact decide_eq_true hA
    · rw [hsafe]
      exact decide_eq_true hS

/-- C9 witness: with basis Bid and a missing bid column, the contract's
premium is 0, its annualized return is 0, and with zero thresholds its row
still passes the normal filters into the loop output. -/
theorem c9_witness :
    selectPremiumField critScenario.priceBasis putNoBid = none ∧
    (mkRow critScenario.priceBasis 150 30 "2026-01-15" putNoBid).premium = 0 ∧
    (mkRow critScenario.priceBasis 150 30 "2026-01-15" putNoBid).annualizedReturnPct = 0 ∧
    mkRow critScenario.priceBasis 150 30 "2026-01-15" putNoBid ∈
      processDate critScenario 150 30 "2026-01-15" [putNoBid] := by
  have h := c9_missing_premium critScenario 150 30 "2026-01-15" putNoBid [putNoBid] rfl
  refine ⟨rfl, h.1, h.2.1, ?_⟩
  refine (h.2.2 (by simp) (by norm_num [strikeFilter, critScenario, putNoBid])).mpr
    ⟨by norm_num [critScenario], by norm_num [critScenario, putNoBid]⟩

/-- C10: the resolved price is never zero — the Python truthiness of the
fallback chain and the `if not current_price` guard reject 0, None and
missing alike — so whenever a run reaches metric computation its rows'
safety margin divides by a nonzero currentPrice. -/
theorem c10_price_nonzero :
    (∀ info p, resolvePriceGuard info = some p → p ≠ 0) ∧
    (∀ env c rows, runApp env c = .ok rows →
      resolvePriceGuard env.feed.info ≠ none) ∧
    (∀ env c rows price, runApp env c = .ok rows →
      resolvePriceGuard env.feed.info = some price →
      price ≠ 0 ∧ ∀ r ∈ rows, r.safetyMarginPct = (price - r.strike) / price * 100) := by
  have hz : ∀ info p, resolvePriceGuard info = some p → p ≠ 0 := by
    intro info p h
    unfold resolvePriceGuard at h
    by_cases ht : pyTruthy (currentPriceExpr info) = true
    · rw [if_pos ht] at h
      rw [h] at ht
      simpa [pyTruthy] using ht
    · rw [if_neg ht] at h
      exact Option.noConfusion h
  refine ⟨hz, ?_, ?_⟩
  · intro env c rows hok hnone
    obtain ⟨pre, hg, _⟩ := runApp_ok hok
    rw [gatherRows_eq_none hnone] at hg
    exact Except.noConfusion hg
  · intro env c rows price hok hp
    refine ⟨hz _ _ hp, ?_⟩
    intro r hr
    obtain ⟨price2, date, p, hp2, hdm, hre⟩ := mem_runApp_struct hok r hr
    rw [hp] at hp2
    injection hp2 with hp2
    subst hp2
    subst hre
    rfl

/-- C10 witness: the scenario run resolves price 150, which is nonzero, and
its row's safety margin is the division by that price. -/
theorem c10_witness :
    ((150 : ℚ) ≠ 0) ∧
    rowScenario.safetyMarginPct = (150 - rowScenario.strike) / 150 * 100 := by
  have hok : runApp envScenario critScenario = .ok [rowScenario] := by
    simp [runApp, gatherRows, resolvePriceGuard, currentPriceExpr, pyOr, pyTruthy,
      processDates, processDate, strikeFilter, mkRow, selectPremiumField, computeDte,
      sortRows, List.insertionSort, List.orderedInsert, envScenario, feedScenario,
      infoPrice150, critScenario, put140, rowScenario, Except.map]
    all_goals norm_num [List.filter_cons, List.filter_nil, List.map_cons,
      List.map_nil, strikeFilter, mkRow, selectPremiumField]
  have hp : resolvePriceGuard envScenario.feed.info = some 150 := by
    norm_num [resolvePriceGuard, currentPriceExpr, pyOr, pyTruthy, envScenario,
      feedScenario, infoPrice150]
  refine ⟨c10_price_nonzero.1 envScenario.feed.info 150 hp, ?_⟩
  exact (c10_price_nonzero.2.2 envScenario critScenario [rowScenario] 150 hok hp).2
    rowScenario (by simp)

end PutCalc
